import Mathlib

set_option maxRecDepth 8000

/-!
Shallow embedding of the YOLO26 Vision demo (src/main.js, src/unnamed/part_000).

Numeric values (JS doubles) are modelled as rationals `ℚ`; tensor buffers are
modelled as total index functions `Nat → ℚ` (every read performed by the code
is in range for the fixed shapes it assumes).  The three tensor decoders, the
detection aggregator, the segmentation renderer and the frame scheduler are
translated function by function from the source; section comments cite the
source lines.
-/

/-- Pixel-space rectangle `[x, y, w, h]`, as pushed into `det.box`. -/
structure Rect where
  x : ℚ
  y : ℚ
  w : ℚ
  h : ℚ
deriving DecidableEq, Repr

/-- One pose keypoint `{x, y, confidence}` (src/main.js lines 573-579). -/
structure Keypoint where
  x : ℚ
  y : ℚ
  confidence : ℚ
deriving DecidableEq, Repr

/-- A read-only tensor: a shape together with its flat data buffer
(ONNX Runtime / Transformers.js tensors as the decoders consume them). -/
structure TensorView where
  shape : List Nat
  data : Nat → ℚ

/-- The `type` tag of a detection object (`'object' | 'pose' | 'segment'`). -/
inductive DetType where
  | object
  | pose
  | segment
deriving DecidableEq, Repr

/-- A detection as pushed by `parseDetections` / `parseSegmentation`
(src/main.js lines 553-559, 582-589, 640-649).  The segment variant carries
the 32 mask coefficients, the shared prototype buffer (`maskData.data`) and
`maskSize = 160` exactly as the source attaches them. -/
inductive Detection where
  | object (box : Rect) (score : ℚ) (classId : Nat) (label : String)
  | pose (box : Rect) (score : ℚ) (keypoints : List Keypoint)
  | segment (box : Rect) (score : ℚ) (classId : ℤ) (label : String)
      (maskCoeffs : List ℚ) (maskProtos : Nat → ℚ) (maskSize : Nat)

/-- The `type` field of a detection. -/
def detType : Detection → DetType
  | .object _ _ _ _ => .object
  | .pose _ _ _ => .pose
  | .segment _ _ _ _ _ _ _ => .segment

/-- `det.box`. -/
def Detection.box : Detection → Rect
  | .object b _ _ _ => b
  | .pose b _ _ => b
  | .segment b _ _ _ _ _ _ => b

/-- `det.score`. -/
def Detection.score : Detection → ℚ
  | .object _ s _ _ => s
  | .pose _ s _ => s
  | .segment _ s _ _ _ _ _ => s

/-- `det.classId` (a pose detection has none; the projection returns 0 there). -/
def Detection.classId : Detection → ℤ
  | .object _ _ c _ => (c : ℤ)
  | .pose _ _ _ => 0
  | .segment _ _ c _ _ _ _ => c

/-- `det.label` (a pose detection has none; the projection returns `""` there). -/
def Detection.label : Detection → String
  | .object _ _ _ l => l
  | .pose _ _ _ => ""
  | .segment _ _ _ l _ _ _ => l

/-- `det.maskCoeffs` (empty for non-segment detections). -/
def segCoeffs : Detection → List ℚ
  | .segment _ _ _ _ co _ _ => co
  | _ => []

/-- `CONFIG.detection.numClasses` (src/main.js line 36). -/
def numClasses : Nat := 80

/-- `CONFIG.detection.maxDetections` (src/main.js line 37). -/
def maxDetections : Nat := 300

/-- `CONFIG.pose.numKeypoints` (src/main.js line 41). -/
def numKeypoints : Nat := 17

/-- `COCO_CLASSES` (src/main.js lines 73-84). -/
def COCO_CLASSES : List String :=
  ["person", "bicycle", "car", "motorcycle", "airplane", "bus", "train", "truck", "boat",
   "traffic light", "fire hydrant", "stop sign", "parking meter", "bench", "bird", "cat",
   "dog", "horse", "sheep", "cow", "elephant", "bear", "zebra", "giraffe", "backpack",
   "umbrella", "handbag", "tie", "suitcase", "frisbee", "skis", "snowboard", "sports ball",
   "kite", "baseball bat", "baseball glove", "skateboard", "surfboard", "tennis racket",
   "bottle", "wine glass", "cup", "fork", "knife", "spoon", "bowl", "banana", "apple",
   "sandwich", "orange", "broccoli", "carrot", "hot dog", "pizza", "donut", "cake",
   "chair", "couch", "potted plant", "bed", "dining table", "toilet", "tv", "laptop",
   "mouse", "remote", "keyboard", "cell phone", "microwave", "oven", "toaster", "sink",
   "refrigerator", "book", "clock", "vase", "scissors", "teddy bear", "hair drier",
   "toothbrush"]

/-- `CONFIG.colors` (src/main.js lines 50-54). -/
def colorsCfg : List String :=
  ["#6366f1", "#ec4899", "#14b8a6", "#f59e0b",
   "#8b5cf6", "#ef4444", "#10b981", "#3b82f6",
   "#f97316", "#84cc16", "#06b6d4", "#a855f7"]

/-- JavaScript `Math.round`: round half toward positive infinity. -/
def jsRound (q : ℚ) : ℤ := ⌊q + 1/2⌋

/-- Class-score read of candidate slot `i`, class `j`:
`scores[i * CONFIG.detection.numClasses + j]` (src/main.js line 544).
`scores` is `detectOutput.logits.sigmoid().data`, the elementwise-sigmoided
logits produced by the external tensor library. -/
def slotScores (scores : Nat → ℚ) (i j : Nat) : ℚ :=
  scores (i * numClasses + j)

/-- The per-slot argmax scan (src/main.js lines 542-546): start from
`maxScore = 0, maxClass = 0` and update both only on a strictly greater
score.  Returns `(maxScore, maxClass)`. -/
def slotMax (s : Nat → ℚ) (C : Nat) : ℚ × Nat :=
  (List.range C).foldl (fun b j => if s j > b.1 then (s j, j) else b) (0, 0)

/-- Object box decode (src/main.js line 555): normalized center/size to a
pixel-space top-left rect. -/
def objBox (cx cy w h W H : ℚ) : Rect :=
  ⟨(cx - w/2) * W, (cy - h/2) * H, w * W, h * H⟩

/-- Label resolution (src/main.js line 558):
`id2label[maxClass] || COCO_CLASSES[maxClass] || "Class " + maxClass`. -/
def resolveLabel (id2label : Nat → Option String) (c : Nat) : String :=
  (id2label c).getD ((COCO_CLASSES.get? c).getD ("Class " ++ toString c))

/-- One iteration of the object-detection loop body (src/main.js lines
542-560): argmax over the class scores of slot `i`, threshold test
`maxScore >= threshold`, box decode and label resolution. -/
def objectSlot (scores boxes : Nat → ℚ) (id2label : Nat → Option String)
    (t W H : ℚ) (i : Nat) : Option Detection :=
  let mc := slotMax (slotScores scores i) numClasses
  if mc.1 ≥ t then
    some (.object (objBox (boxes (i*4)) (boxes (i*4+1)) (boxes (i*4+2))
      (boxes (i*4+3)) W H) mc.1 mc.2 (resolveLabel id2label mc.2))
  else none

/-- The object-detection branch of `parseDetections` (src/main.js lines
536-562): the loop over `CONFIG.detection.maxDetections` candidate slots,
pushing at most one detection per slot. -/
def objectDecode (scores boxes : Nat → ℚ) (id2label : Nat → Option String)
    (t W H : ℚ) : List Detection :=
  (List.range maxDetections).filterMap (objectSlot scores boxes id2label t W H)

/-- One iteration of the pose loop body (src/main.js lines 567-590):
row stride 57, score at `offset + 4`, keypoint triples from `offset + 6`,
corner-based box decode. -/
def poseSlot (data : Nat → ℚ) (t W H : ℚ) (i : Nat) : Option Detection :=
  let off := i * 57
  let score := data (off + 4)
  if score ≥ t then
    some (.pose
      ⟨data off * W, data (off+1) * H,
       (data (off+2) - data off) * W, (data (off+3) - data (off+1)) * H⟩
      score
      ((List.range numKeypoints).map fun k =>
        ⟨data (off+6+k*3) * W, data (off+6+k*3+1) * H, data (off+6+k*3+2)⟩))
  else none

/-- The pose branch of `parseDetections` (src/main.js lines 565-592). -/
def poseDecode (data : Nat → ℚ) (t W H : ℚ) : List Detection :=
  (List.range maxDetections).filterMap (poseSlot data t W H)

/-- Segmentation label lookup (src/main.js line 645):
`COCO_CLASSES[classId] || "Class " + classId`, where an out-of-range or
negative rounded `classId` falls through to the synthesized label. -/
def cocoLabelZ (c : ℤ) : String :=
  if c < 0 then "Class " ++ toString c
  else (COCO_CLASSES.get? c.toNat).getD ("Class " ++ toString c)

/-- One iteration of the `parseSegmentation` loop body (src/main.js lines
615-650): row stride 38, corner box, score at `offset + 4`,
`classId = Math.round(data[offset + 5])`, `continue` when
`score < threshold`, 32 mask coefficients from `offset + 6`, and the shared
prototype buffer plus `maskSize = 160` attached to the detection. -/
def segSlot (data : Nat → ℚ) (maskProtos : Nat → ℚ) (t W H : ℚ) (i : Nat) :
    Option Detection :=
  let off := i * 38
  let score := data (off + 4)
  if score < t then none
  else
    some (.segment
      ⟨data off * W, data (off+1) * H,
       (data (off+2) - data off) * W, (data (off+3) - data (off+1)) * H⟩
      score (jsRound (data (off+5))) (cocoLabelZ (jsRound (data (off+5))))
      ((List.range 32).map fun j => data (off+6+j))
      maskProtos 160)

/-- `segResults = { detections: output0, masks: output1 }`
(src/main.js line 497). -/
structure SegResults where
  detections : TensorView
  masks : TensorView

/-- `parseSegmentation(segResults, canvasWidth, canvasHeight)` (src/main.js
lines 603-656): loops over `numDetections = 300` rows of the detection
tensor, reading the prototype buffer only to attach it untouched. -/
def parseSegmentation (segResults : SegResults) (t W H : ℚ) : List Detection :=
  (List.range 300).filterMap
    (segSlot segResults.detections.data segResults.masks.data t W H)

/-- The object head's output pair: `detectOutput.logits.sigmoid().data`
(already sigmoided by the tensor library) and `detectOutput.pred_boxes.data`
(src/main.js lines 537-538). -/
structure DetectOut where
  scores : Nat → ℚ
  boxes : Nat → ℚ

/-- `parseDetections(detectOutput, poseOutput, segResults)` (src/main.js
lines 531-601): one `detections` array, filled by pushing the object head's
detections first, then the pose head's, then the segmentation head's. -/
def parseDetections (detectOutput : Option DetectOut)
    (poseOutput : Option (Nat → ℚ)) (segResults : Option SegResults)
    (id2label : Nat → Option String) (t W H : ℚ) : List Detection :=
  (match detectOutput with
   | some d => objectDecode d.scores d.boxes id2label t W H
   | none => []) ++
  (match poseOutput with
   | some p => poseDecode p t W H
   | none => []) ++
  (match segResults with
   | some s => parseSegmentation s t W H
   | none => [])

/-- The processing order of `draw` (src/main.js lines 662-679): filter the
segment detections and draw them first, then the object detections, then the
pose detections. -/
def draw (dets : List Detection) : List Detection :=
  dets.filter (fun d => detType d == DetType.segment) ++
  dets.filter (fun d => detType d == DetType.object) ++
  dets.filter (fun d => detType d == DetType.pose)

/-- The stacking order asserted of the merged sequence: all segmentation
detections first, then all plain object detections, then all pose
detections (each block in original relative order). -/
def segObjPoseOrder (l : List Detection) : Prop :=
  l = l.filter (fun d => detType d == DetType.segment) ++
      l.filter (fun d => detType d == DetType.object) ++
      l.filter (fun d => detType d == DetType.pose)

/-- The prototype-independent view of a segment detection: every field
`parseSegmentation` computes except the attached prototype buffer. -/
def stripSeg : Detection → Option (Rect × ℚ × ℤ × String × List ℚ × Nat)
  | .segment b s c l co _ ms => some (b, s, c, l, co, ms)
  | _ => none

/-- JavaScript `%` remainder (sign follows the dividend), used by
`det.classId % CONFIG.colors.length`. -/
def jsRem (a : ℤ) (b : ℤ) : ℤ := Int.tmod a b

/-- `CONFIG.colors[det.classId % CONFIG.colors.length]` (src/main.js
line 745); a negative index reads `undefined`, modelled as `""`. -/
def segColor (classId : ℤ) : String :=
  if jsRem classId 12 < 0 then ""
  else (colorsCfg.get? (jsRem classId 12).toNat).getD ""

/-- The label text `det.label + " " + Math.round(det.score * 100) + "%"`
(src/main.js line 746). -/
def segLabelText (d : Detection) : String :=
  Detection.label d ++ " " ++ toString (jsRound (Detection.score d * 100)) ++ "%"

/-- The canvas operations `drawSegmentationMask` issues, in a record: the
tinted fill, the stroked border, the label background and the label text. -/
structure SegRender where
  fillBox : Rect
  fillStyle : String
  strokeStyle : String
  lineWidth : ℚ
  labelBox : Rect
  labelText : String
  textPos : ℚ × ℚ

/-- `drawSegmentationMask(det)` (src/main.js lines 743-772): fills the
bounding-box area with the class color at 25% opacity, strokes the border,
and draws the label.  `measureText` is the external canvas text metric. -/
def drawSegmentationMask (measureText : String → ℚ) (d : Detection) :
    SegRender :=
  let box := Detection.box d
  let color := segColor (Detection.classId d)
  let label := segLabelText d
  let labelHeight : ℚ := 24
  let labelY := if box.y > labelHeight + 4 then box.y - labelHeight - 4
                else box.y + box.h + 4
  { fillBox := box
    fillStyle := color ++ "40"
    strokeStyle := color
    lineWidth := 2
    labelBox := ⟨box.x, labelY, measureText label + 12, labelHeight⟩
    labelText := label
    textPos := (box.x + 6, labelY + 16) }

/-- The scheduler-relevant slice of the application `state` object
(src/main.js lines 136-163) plus `inFlight`, the number of
`processFrame()` invocations whose `finally` has not yet run (an
observer variable, not program state). -/
structure SchedState where
  isRunning : Bool
  isProcessing : Bool
  animationId : Bool
  modelsReady : Bool
  frameCount : Nat
  lastFpsUpdate : ℚ
  recentInferenceTimes : List ℚ
  inFlight : Nat
deriving DecidableEq, Repr

/-- The initial `state` object: not running, not processing, counters at
zero (src/main.js lines 148-162); models loaded. -/
def initState : SchedState :=
  { isRunning := false, isProcessing := false, animationId := false
    modelsReady := true, frameCount := 0, lastFpsUpdate := 0
    recentInferenceTimes := [], inFlight := 0 }

/-- One execution of `runDetectionLoop` (src/main.js lines 415-437): early
return unless running; publish and reset the FPS counter once a second;
start `processFrame()` only when the models are ready and `isProcessing` is
clear, setting `isProcessing` before the invocation; re-arm the next
animation frame. -/
def tick (now : ℚ) (s : SchedState) : SchedState :=
  if s.isRunning = false then s
  else
    let s1 := if now - s.lastFpsUpdate ≥ 1000
              then { s with frameCount := 0, lastFpsUpdate := now } else s
    let s2 := if s1.modelsReady && !s1.isProcessing
              then { s1 with isProcessing := true, inFlight := s1.inFlight + 1 }
              else s1
    { s2 with animationId := true }

/-- The settling of one `processFrame()` invocation: the latency push and
10-sample cap from src/main.js lines 470-471 and the `finally` handler of
lines 430-433 (`isProcessing = false; frameCount++`).  A no-op when nothing
is in flight (the handler cannot run then). -/
def settleFrame (dur : ℚ) (s : SchedState) : SchedState :=
  if s.inFlight = 0 then s
  else
    let rit := s.recentInferenceTimes ++ [dur]
    let rit := if rit.length > 10 then rit.tail else rit
    { s with inFlight := s.inFlight - 1, isProcessing := false,
             frameCount := s.frameCount + 1, recentInferenceTimes := rit }

/-- `startCamera()` (src/main.js lines 341-382): sets `isRunning = true` and
synchronously calls `runDetectionLoop()`.  It touches none of
`frameCount`, `lastFpsUpdate`, `recentInferenceTimes`. -/
def startCamera (now : ℚ) (s : SchedState) : SchedState :=
  tick now { s with isRunning := true }

/-- `stopCamera(keepProcessing)` (src/main.js lines 384-409): cancels the
pending animation frame, stops running, and clears `isProcessing` unless
`keepProcessing` is set. -/
def stopCamera (keepProcessing : Bool) (s : SchedState) : SchedState :=
  { s with animationId := false, isRunning := false,
           isProcessing := if keepProcessing then s.isProcessing else false }

/-- The `visibilitychange` handler (src/main.js lines 822-825): while
running, force `isProcessing = true` when hidden and `isProcessing = false`
when visible again. -/
def visibilityChange (hidden : Bool) (s : SchedState) : SchedState :=
  if hidden && s.isRunning then { s with isProcessing := true }
  else if !hidden && s.isRunning then { s with isProcessing := false }
  else s

/-- The session events that touch the scheduler state. -/
inductive Ev where
  | tick (now : ℚ)
  | settle (dur : ℚ)
  | start (now : ℚ)
  | stop (keepProcessing : Bool)
  | visibility (hidden : Bool)

/-- Interpretation of one event as a state transition. -/
def stepEv : Ev → SchedState → SchedState
  | .tick now => tick now
  | .settle dur => settleFrame dur
  | .start now => startCamera now
  | .stop keep => stopCamera keep
  | .visibility hidden => visibilityChange hidden

/-- Run a sequence of session events from a state. -/
def runEvents (s : SchedState) (evs : List Ev) : SchedState :=
  evs.foldl (fun s e => stepEv e s) s

/-- Events that never clear `isProcessing` while an invocation may still be
in flight: everything except `stopCamera(false)` and visibility
transitions. -/
def allowedEv : Ev → Prop
  | .stop keep => keep = true
  | .visibility _ => False
  | _ => True

instance : DecidablePred allowedEv := fun e =>
  match e with
  | .tick _ => .isTrue trivial
  | .settle _ => .isTrue trivial
  | .start _ => .isTrue trivial
  | .stop keep => inferInstanceAs (Decidable (keep = true))
  | .visibility _ => .isFalse fun h => h

/-- The single-flight invariant: at most one invocation in flight, and none
when `isProcessing` is clear. -/
def SingleFlight (s : SchedState) : Prop :=
  s.inFlight ≤ 1 ∧ (s.isProcessing = false → s.inFlight = 0)


/-! ## Helper lemmas -/

/-- If `f` succeeds only where `g` succeeds with the same value, the
`filterMap` of `f` is pointwise contained in that of `g`. -/
lemma filterMap_subset_of_imp {α β : Type} (f g : α → Option β) (l : List α)
    (h : ∀ a b, f a = some b → g a = some b) :
    l.filterMap f ⊆ l.filterMap g := by
  intro x hx
  rcases List.mem_filterMap.mp hx with ⟨a, ha, hfa⟩
  exact List.mem_filterMap.mpr ⟨a, ha, h a x hfa⟩

/-- The length of a `filterMap` whose success is decided by a boolean
predicate equals the count of that predicate. -/
lemma length_filterMap_eq_countP {α β : Type} (f : α → Option β)
    (c : α → Bool) (h : ∀ a, (f a).isSome = c a) :
    ∀ l : List α, (l.filterMap f).length = l.countP c := by
  intro l
  induction l with
  | nil => rfl
  | cons a l ih =>
    have hca := h a
    cases hfa : f a with
    | none =>
      rw [hfa] at hca
      simp only [Option.isSome_none] at hca
      rw [List.filterMap_cons_none hfa, List.countP_cons, ← hca]
      simp [ih]
    | some b =>
      rw [hfa] at hca
      simp only [Option.isSome_some] at hca
      rw [List.filterMap_cons_some hfa, List.countP_cons, ← hca]
      simp [ih]

/-- Unfolding `slotMax` by one class index. -/
lemma slotMax_succ (s : Nat → ℚ) (C : Nat) :
    slotMax s (C+1) =
      (if s C > (slotMax s C).1 then (s C, C) else slotMax s C) := by
  unfold slotMax
  rw [List.range_succ, List.foldl_append]
  rfl

/-- Behaviour of the argmax scan of src/main.js lines 542-546: the running
maximum starts at 0 and dominates every scanned score; the recorded class is
0 while the maximum is still 0, points at a genuine attaining index once the
maximum is positive, and every class before it scored strictly less. -/
lemma slotMax_spec (s : Nat → ℚ) :
    ∀ C : Nat,
      0 ≤ (slotMax s C).1 ∧
      ((slotMax s C).1 = 0 → (slotMax s C).2 = 0) ∧
      (0 < (slotMax s C).1 →
        (slotMax s C).2 < C ∧ s (slotMax s C).2 = (slotMax s C).1) ∧
      (∀ j, j < C → s j ≤ (slotMax s C).1) ∧
      (∀ j, j < (slotMax s C).2 → s j < (slotMax s C).1) := by
  intro C
  induction C with
  | zero =>
    refine ⟨le_refl 0, fun _ => rfl, fun h => absurd h (lt_irrefl 0), ?_, ?_⟩
    · intro j hj; exact absurd hj (Nat.not_lt_zero j)
    · intro j hj; exact absurd hj (Nat.not_lt_zero j)
  | succ C ih =>
    rcases ih with ⟨h0, hz, hpos, hub, hlt⟩
    rw [slotMax_succ]
    by_cases hgt : s C > (slotMax s C).1
    · rw [if_pos hgt]
      refine ⟨le_of_lt (lt_of_le_of_lt h0 hgt), ?_, ?_, ?_, ?_⟩
      · intro hc
        have hsc : s C = 0 := hc
        have hcontra : (0 : ℚ) < s C := lt_of_le_of_lt h0 hgt
        rw [hsc] at hcontra
        exact absurd hcontra (lt_irrefl (0 : ℚ))
      · intro _
        exact ⟨Nat.lt_succ_self C, rfl⟩
      · intro j hj
        rcases Nat.lt_succ_iff_lt_or_eq.mp hj with h | h
        · exact le_of_lt (lt_of_le_of_lt (hub j h) hgt)
        · exact h ▸ le_refl _
      · intro j hj
        exact lt_of_le_of_lt (hub j hj) hgt
    · rw [if_neg hgt]
      have hle : s C ≤ (slotMax s C).1 := not_lt.mp hgt
      refine ⟨h0, hz, ?_, ?_, hlt⟩
      · intro hp
        rcases hpos hp with ⟨hc, heq⟩
        exact ⟨Nat.lt_succ_of_lt hc, heq⟩
      · intro j hj
        rcases Nat.lt_succ_iff_lt_or_eq.mp hj with h | h
        · exact hub j h
        · exact h ▸ hle

/-- `runDetectionLoop` preserves the single-flight invariant. -/
lemma singleFlight_tick (now : ℚ) (s : SchedState) (h : SingleFlight s) :
    SingleFlight (tick now s) := by
  rcases h with ⟨h1, h2⟩
  by_cases hr : s.isRunning = false
  · simpa [tick, hr] using ⟨h1, h2⟩
  · by_cases hp : (s.modelsReady && !s.isProcessing) = true
    · have hp' := hp
      simp only [Bool.and_eq_true, Bool.not_eq_true'] at hp'
      have hz0 : s.inFlight = 0 := h2 hp'.2
      by_cases hf : now - s.lastFpsUpdate ≥ 1000 <;>
        refine ⟨?_, ?_⟩ <;> simp [tick, hr, hf, hp, hz0]
    · by_cases hf : now - s.lastFpsUpdate ≥ 1000 <;> refine ⟨?_, ?_⟩ <;>
        first
          | simpa [tick, hr, hf, hp] using h1
          | simpa [tick, hr, hf, hp] using h2

/-- Settling an invocation preserves the single-flight invariant. -/
lemma singleFlight_settle (dur : ℚ) (s : SchedState) (h : SingleFlight s) :
    SingleFlight (settleFrame dur s) := by
  rcases h with ⟨h1, h2⟩
  by_cases hz : s.inFlight = 0
  · simpa [settleFrame, hz] using ⟨h1, h2⟩
  · refine ⟨?_, ?_⟩ <;> simp [settleFrame, hz] <;> omega

/-- `stopCamera(true)` preserves the single-flight invariant. -/
lemma singleFlight_stopTrue (s : SchedState) (h : SingleFlight s) :
    SingleFlight (stopCamera true s) := by
  rcases h with ⟨h1, h2⟩
  refine ⟨?_, ?_⟩ <;> simp [stopCamera]
  · exact h1
  · exact h2

/-- `startCamera` preserves the single-flight invariant. -/
lemma singleFlight_start (now : ℚ) (s : SchedState) (h : SingleFlight s) :
    SingleFlight (startCamera now s) :=
  singleFlight_tick now _ ⟨h.1, h.2⟩

/-- The single-flight invariant is preserved along any event sequence that
avoids `stopCamera(false)` and visibility transitions. -/
lemma singleFlight_runEvents :
    ∀ (evs : List Ev) (s : SchedState),
      (∀ e ∈ evs, allowedEv e) → SingleFlight s →
      SingleFlight (runEvents s evs) := by
  intro evs
  induction evs with
  | nil => intro s _ h; exact h
  | cons e evs ih =>
    intro s hall h
    have he : allowedEv e := hall e (List.mem_cons_self e evs)
    have hrest : ∀ e' ∈ evs, allowedEv e' :=
      fun e' h' => hall e' (List.mem_cons_of_mem e h')
    show SingleFlight (runEvents (stepEv e s) evs)
    apply ih _ hrest
    cases e with
    | tick now => exact singleFlight_tick now s h
    | settle dur => exact singleFlight_settle dur s h
    | start now => exact singleFlight_start now s h
    | stop keep =>
      have hk : keep = true := he
      subst hk
      exact singleFlight_stopTrue s h
    | visibility hidden => exact False.elim he

/-! ## Claim theorems: scheduler (C2, C8) -/

/-- C2, counterexample: the in-flight invocation count is NOT always at most
one.  From the initial state, `startCamera` at t=0 starts an inference;
`stopCamera(false)` (the user stop button, src/main.js lines 781-783 and
396) clears `isProcessing` while that invocation has not settled; restarting
lets the next tick start a second inference: two invocations in flight. -/
theorem scheduler_double_inflight_trace :
    (runEvents initState [Ev.start 0, Ev.stop false, Ev.start 1]).inFlight = 2 := by
  with_unfolding_all decide

/-- C2, amended: `runDetectionLoop` starts a new inference only when
`isProcessing` is clear and sets the flag before invoking the pipeline; and
along every event sequence that avoids `stopCamera(false)` and visibility
transitions — the two places that clear the flag without waiting for the
invocation to settle — the in-flight count stays at most 1 (and is 0
whenever the flag is clear). -/
theorem scheduler_single_flight_restricted :
    (∀ (now : ℚ) (s : SchedState), (tick now s).inFlight ≠ s.inFlight →
      s.isProcessing = false ∧ (tick now s).isProcessing = true ∧
      (tick now s).inFlight = s.inFlight + 1) ∧
    (∀ evs : List Ev, (∀ e ∈ evs, allowedEv e) →
      SingleFlight (runEvents initState evs)) := by
  constructor
  · intro now s hne
    by_cases hr : s.isRunning = false
    · exact absurd (by simp [tick, hr]) hne
    · by_cases hp : (s.modelsReady && !s.isProcessing) = true
      · have hp' := hp
        simp only [Bool.and_eq_true, Bool.not_eq_true'] at hp'
        by_cases hf : now - s.lastFpsUpdate ≥ 1000 <;>
          exact ⟨hp'.2, by simp [tick, hr, hf, hp], by simp [tick, hr, hf, hp]⟩
      · by_cases hf : now - s.lastFpsUpdate ≥ 1000 <;>
          exact absurd (by simp [tick, hr, hf, hp]) hne
  · intro evs hall
    exact singleFlight_runEvents evs initState hall ⟨by with_unfolding_all decide, fun _ => rfl⟩

/-- Witness for `scheduler_single_flight_restricted` at a concrete running
state and a concrete allowed trace. -/
theorem scheduler_single_flight_restricted_witness :
    ((⟨true, false, false, true, 0, 0, [], 0⟩ : SchedState).isProcessing = false ∧
     (tick 0 ⟨true, false, false, true, 0, 0, [], 0⟩).isProcessing = true ∧
     (tick 0 ⟨true, false, false, true, 0, 0, [], 0⟩).inFlight =
       (⟨true, false, false, true, 0, 0, [], 0⟩ : SchedState).inFlight + 1) ∧
    SingleFlight (runEvents initState
      [Ev.start 0, Ev.tick 1, Ev.settle 7, Ev.stop true]) :=
  ⟨scheduler_single_flight_restricted.1 0 ⟨true, false, false, true, 0, 0, [], 0⟩
      (by with_unfolding_all decide),
   scheduler_single_flight_restricted.2
      [Ev.start 0, Ev.tick 1, Ev.settle 7, Ev.stop true] (by with_unfolding_all decide)⟩

/-- A session state with nonzero performance counters, about to restart. -/
def c8state : SchedState :=
  { isRunning := false, isProcessing := false, animationId := false
    modelsReady := true, frameCount := 5, lastFpsUpdate := 500
    recentInferenceTimes := [3], inFlight := 0 }

/-- C8, counterexample: restarting at t=600 from a stopped state with
`frameCount = 5`, `lastFpsUpdate = 500` and one buffered latency sample
leaves all three untouched — `startCamera` resets none of them. -/
theorem startCamera_no_reset_cex :
    (startCamera 600 c8state).frameCount = 5 ∧
    (startCamera 600 c8state).lastFpsUpdate = 500 ∧
    (startCamera 600 c8state).recentInferenceTimes = [3] ∧
    ¬ ((startCamera 600 c8state).frameCount = 0 ∧
       (startCamera 600 c8state).lastFpsUpdate = 600 ∧
       (startCamera 600 c8state).recentInferenceTimes = []) := by
  with_unfolding_all decide

/-- C8, amended: `startCamera` transitions to Running and immediately runs
one loop tick; it never clears the latency ring buffer, and it resets
`frameCount`/`lastFpsUpdate` only through the loop's once-per-second FPS
publish — i.e. exactly when at least 1000 ms have passed since the last
publish, not as a start-transition reset. -/
theorem startCamera_preserves_stats (s : SchedState) (now : ℚ) :
    (startCamera now s).isRunning = true ∧
    (startCamera now s).recentInferenceTimes = s.recentInferenceTimes ∧
    (now - s.lastFpsUpdate < 1000 →
      (startCamera now s).frameCount = s.frameCount ∧
      (startCamera now s).lastFpsUpdate = s.lastFpsUpdate) ∧
    (now - s.lastFpsUpdate ≥ 1000 →
      (startCamera now s).frameCount = 0 ∧
      (startCamera now s).lastFpsUpdate = now) := by
  by_cases hf : now - s.lastFpsUpdate ≥ 1000 <;>
    by_cases hp : (s.modelsReady && !s.isProcessing) = true <;>
    refine ⟨?_, ?_, fun hlt => ?_, fun hge => ?_⟩ <;>
    first
      | exact absurd hf (not_le.mpr hlt)
      | exact absurd hge hf
      | simp [startCamera, tick, hf, hp]

/-- Witness for `startCamera_preserves_stats` at the concrete restart
state. -/
theorem startCamera_preserves_stats_witness :
    (startCamera 600 c8state).recentInferenceTimes =
      c8state.recentInferenceTimes ∧
    ((600 : ℚ) - c8state.lastFpsUpdate < 1000) ∧
    ((startCamera 600 c8state).frameCount = c8state.frameCount ∧
     (startCamera 600 c8state).lastFpsUpdate = c8state.lastFpsUpdate) :=
  ⟨(startCamera_preserves_stats c8state 600).2.1, by with_unfolding_all decide,
   (startCamera_preserves_stats c8state 600).2.2.1 (by with_unfolding_all decide)⟩

/-- A score scan over only nonpositive scores never updates, returning
`(0, 0)`. -/
lemma slotMax_of_nonpos (s : Nat → ℚ) (C : Nat) (h : ∀ j, j < C → s j ≤ 0) :
    slotMax s C = (0, 0) := by
  induction C with
  | zero => rfl
  | succ C ih =>
    rw [slotMax_succ, ih (fun j hj => h j (Nat.lt_succ_of_lt hj))]
    rw [if_neg]
    exact not_lt.mpr (h C (Nat.lt_succ_self C))

/-! ## Claim theorems: decoders (C3, C4, C5, C10) -/

/-- C3: for thresholds `t1 < t2` the detections each decoder returns at
`t2` are a subset of those it returns at `t1` — every decoder emits a slot's
detection, unchanged, exactly when the slot's score clears the threshold. -/
theorem decoders_threshold_monotone (t1 t2 : ℚ) (h : t1 < t2)
    (scores boxes : Nat → ℚ) (id2label : Nat → Option String)
    (poseData : Nat → ℚ) (sr : SegResults) (W H : ℚ) :
    objectDecode scores boxes id2label t2 W H ⊆
      objectDecode scores boxes id2label t1 W H ∧
    poseDecode poseData t2 W H ⊆ poseDecode poseData t1 W H ∧
    parseSegmentation sr t2 W H ⊆ parseSegmentation sr t1 W H := by
  have hle : t1 ≤ t2 := le_of_lt h
  refine ⟨?_, ?_, ?_⟩
  · apply filterMap_subset_of_imp
    intro i d hd
    simp only [objectSlot] at hd ⊢
    split at hd
    · next hc => rw [if_pos (le_trans hle hc)]; exact hd
    · next => exact Option.noConfusion hd
  · apply filterMap_subset_of_imp
    intro i d hd
    simp only [poseSlot] at hd ⊢
    split at hd
    · next hc => rw [if_pos (le_trans hle hc)]; exact hd
    · next => exact Option.noConfusion hd
  · apply filterMap_subset_of_imp
    intro i d hd
    simp only [segSlot] at hd ⊢
    split at hd
    · next => exact Option.noConfusion hd
    · next hc =>
        rw [if_neg (fun hlt => hc (lt_of_lt_of_le hlt hle))]
        exact hd

/-- Witness for `decoders_threshold_monotone` at thresholds 1/4 < 1/2 on
all-zero tensors. -/
theorem decoders_threshold_monotone_witness :
    ((1:ℚ)/4 < 1/2) ∧
    (objectDecode (fun _ => 0) (fun _ => 0) (fun _ => none) (1/2) 1 1 ⊆
      objectDecode (fun _ => 0) (fun _ => 0) (fun _ => none) (1/4) 1 1) ∧
    (poseDecode (fun _ => 0) (1/2) 1 1 ⊆ poseDecode (fun _ => 0) (1/4) 1 1) ∧
    (parseSegmentation ⟨⟨[], fun _ => 0⟩, ⟨[], fun _ => 0⟩⟩ (1/2) 1 1 ⊆
      parseSegmentation ⟨⟨[], fun _ => 0⟩, ⟨[], fun _ => 0⟩⟩ (1/4) 1 1) :=
  ⟨by norm_num,
   decoders_threshold_monotone (1/4) (1/2) (by norm_num) (fun _ => 0)
     (fun _ => 0) (fun _ => none) (fun _ => 0) ⟨⟨[], fun _ => 0⟩, ⟨[], fun _ => 0⟩⟩ 1 1⟩

/-- C4: the object decoder is a per-slot argmax with at most one detection
per candidate slot — the output length equals the number of slots whose
maximal class score clears the threshold; a slot yields a detection exactly
when `maxScore >= threshold`, and then its score is the slot's argmax value;
and with threshold exactly 0 an all-zero scores row is still admitted. -/
theorem objectDecode_per_slot_argmax (scores boxes : Nat → ℚ)
    (id2label : Nat → Option String) (t W H : ℚ) :
    (objectDecode scores boxes id2label t W H).length =
      (List.range maxDetections).countP
        (fun i => decide (t ≤ (slotMax (slotScores scores i) numClasses).1)) ∧
    (∀ i, (objectSlot scores boxes id2label t W H i).isSome =
      decide (t ≤ (slotMax (slotScores scores i) numClasses).1)) ∧
    (∀ i d, objectSlot scores boxes id2label t W H i = some d →
      Detection.score d = (slotMax (slotScores scores i) numClasses).1 ∧
      t ≤ Detection.score d) ∧
    (∀ i, (objectSlot (fun _ => 0) boxes id2label 0 W H i).isSome = true) := by
  have hsome : ∀ i, (objectSlot scores boxes id2label t W H i).isSome =
      decide (t ≤ (slotMax (slotScores scores i) numClasses).1) := by
    intro i
    simp only [objectSlot]
    split
    · next hc => simp [hc]
    · next hc => simp [hc]
  refine ⟨?_, hsome, ?_, ?_⟩
  · exact length_filterMap_eq_countP _ _ hsome (List.range maxDetections)
  · intro i d hd
    simp only [objectSlot] at hd
    split at hd
    · next hc =>
        cases hd
        exact ⟨rfl, hc⟩
    · next => exact Option.noConfusion hd
  · intro i
    have hz := slotMax_of_nonpos (slotScores (fun _ => 0) i) numClasses
      (fun j _ => le_refl 0)
    simp [objectSlot, hz]

/-- The detection slot 0 of an all-zero scores tensor yields at threshold 0
(label resolved through the class-name table). -/
def detZeroRow : Detection := .object ⟨0, 0, 0, 0⟩ 0 0 "person"

/-- Witness for `objectDecode_per_slot_argmax` on all-zero tensors at
threshold 0. -/
theorem objectDecode_per_slot_argmax_witness :
    ((objectDecode (fun _ => 0) (fun _ => 0) (fun _ => none) 0 1 1).length =
      (List.range maxDetections).countP
        (fun i => decide ((0:ℚ) ≤ (slotMax (slotScores (fun _ => 0) i) numClasses).1))) ∧
    (Detection.score detZeroRow =
      (slotMax (slotScores (fun _ => 0) 0) numClasses).1 ∧
      (0:ℚ) ≤ Detection.score detZeroRow) ∧
    (objectSlot (fun _ => 0) (fun _ => 0) (fun _ => none) 0 1 1 0).isSome = true :=
  ⟨(objectDecode_per_slot_argmax (fun _ => 0) (fun _ => 0) (fun _ => none) 0 1 1).1,
   (objectDecode_per_slot_argmax (fun _ => 0) (fun _ => 0) (fun _ => none) 0 1 1).2.2.1
     0 detZeroRow (by with_unfolding_all rfl),
   (objectDecode_per_slot_argmax (fun _ => 0) (fun _ => 0) (fun _ => none) 0 1 1).2.2.2 0⟩

/-- C5: every admitted object detection's pixel box is the center/size
decode `((cx - w/2)·W, (cy - h/2)·H, w·W, h·H)` of its slot's normalized
box row, and consequently the decoded rect's center is exactly
`(cx·W, cy·H)`. -/
theorem objectSlot_box_decode (scores boxes : Nat → ℚ)
    (id2label : Nat → Option String) (t W H : ℚ) (i : Nat) (d : Detection)
    (h : objectSlot scores boxes id2label t W H i = some d) :
    Detection.box d =
      ⟨(boxes (i*4) - boxes (i*4+2)/2) * W,
       (boxes (i*4+1) - boxes (i*4+3)/2) * H,
       boxes (i*4+2) * W, boxes (i*4+3) * H⟩ ∧
    (Detection.box d).x + (Detection.box d).w / 2 = boxes (i*4) * W ∧
    (Detection.box d).y + (Detection.box d).h / 2 = boxes (i*4+1) * H := by
  simp only [objectSlot] at h
  split at h
  · next hc =>
      cases h
      refine ⟨rfl, ?_, ?_⟩ <;> simp only [Detection.box, objBox] <;> ring
  · next => exact Option.noConfusion h

/-- The detection emitted for slot 0 when every normalized box field is 1/2
and the frame is 2 by 2. -/
def detHalfBox : Detection := .object ⟨1/2, 1/2, 1, 1⟩ 0 0 "person"

/-- Witness for `objectSlot_box_decode`: slot 0 of an all-zero scores tensor
with box row (1/2, 1/2, 1/2, 1/2) on a 2 by 2 frame. -/
theorem objectSlot_box_decode_witness :
    Detection.box detHalfBox =
      ⟨((1:ℚ)/2 - (1/2)/2) * 2, ((1:ℚ)/2 - (1/2)/2) * 2, (1/2) * 2, (1/2) * 2⟩ ∧
    (Detection.box detHalfBox).x + (Detection.box detHalfBox).w / 2 = (1/2) * 2 ∧
    (Detection.box detHalfBox).y + (Detection.box detHalfBox).h / 2 = (1/2) * 2 :=
  objectSlot_box_decode (fun _ => 0) (fun _ => 1/2) (fun _ => none) 0 2 2 0
    detHalfBox (by with_unfolding_all rfl)

/-- C10: ties in the per-slot class-score argmax resolve to the smallest
class index.  For nonnegative scores (the sigmoided class scores are), the
scan's result attains the row maximum and every smaller index scored
strictly less; and at threshold 0 an all-zero row is admitted with
`classId = 0`. -/
theorem slotMax_ties_lowest_index (scores : Nat → ℚ) (i : Nat)
    (h : ∀ j, j < numClasses → 0 ≤ slotScores scores i j) :
    (slotMax (slotScores scores i) numClasses).2 < numClasses ∧
    slotScores scores i (slotMax (slotScores scores i) numClasses).2 =
      (slotMax (slotScores scores i) numClasses).1 ∧
    (∀ j, j < numClasses →
      slotScores scores i j ≤ (slotMax (slotScores scores i) numClasses).1) ∧
    (∀ j, j < (slotMax (slotScores scores i) numClasses).2 →
      slotScores scores i j < (slotMax (slotScores scores i) numClasses).1) ∧
    (∀ (boxes : Nat → ℚ) (id2label : Nat → Option String) (W H : ℚ),
      objectSlot (fun _ => 0) boxes id2label 0 W H i = some (Detection.object
        (objBox (boxes (i*4)) (boxes (i*4+1)) (boxes (i*4+2)) (boxes (i*4+3)) W H)
        0 0 (resolveLabel id2label 0))) := by
  have hzero : ∀ (boxes : Nat → ℚ) (id2label : Nat → Option String) (W H : ℚ),
      objectSlot (fun _ => 0) boxes id2label 0 W H i = some (Detection.object
        (objBox (boxes (i*4)) (boxes (i*4+1)) (boxes (i*4+2)) (boxes (i*4+3)) W H)
        0 0 (resolveLabel id2label 0)) := by
    intro boxes id2label W H
    have hz := slotMax_of_nonpos (slotScores (fun _ => 0) i) numClasses
      (fun j _ => le_refl 0)
    simp [objectSlot, hz]
  obtain ⟨h0, hz, hpos, hub, hlt⟩ := slotMax_spec (slotScores scores i) numClasses
  by_cases hm : (slotMax (slotScores scores i) numClasses).1 = 0
  · have hc0 := hz hm
    refine ⟨?_, ?_, hub, ?_, hzero⟩
    · rw [hc0]; norm_num [numClasses]
    · have h1 := hub 0 (by norm_num [numClasses])
      have h2 := h 0 (by norm_num [numClasses])
      rw [hm] at h1 ⊢
      rw [hc0]
      exact le_antisymm h1 h2
    · intro j hj
      rw [hc0] at hj
      exact absurd hj (Nat.not_lt_zero j)
  · have hmpos : 0 < (slotMax (slotScores scores i) numClasses).1 :=
      lt_of_le_of_ne h0 (Ne.symm hm)
    obtain ⟨hcc, heq⟩ := hpos hmpos
    exact ⟨hcc, heq, hub, hlt, hzero⟩

/-- The tied score row used to exercise `slotMax_ties_lowest_index`:
classes 2 and 5 share the maximal score 1/2. -/
def tiedScores : Nat → ℚ := fun n => if n = 2 ∨ n = 5 then 1/2 else 0

/-- Witness for `slotMax_ties_lowest_index` on `tiedScores`: the scan lands
on class 2, the smaller of the two tying indices. -/
theorem slotMax_ties_lowest_index_witness :
    slotMax (slotScores tiedScores 0) numClasses = (1/2, 2) ∧
    ((slotMax (slotScores tiedScores 0) numClasses).2 < numClasses ∧
     slotScores tiedScores 0 (slotMax (slotScores tiedScores 0) numClasses).2 =
       (slotMax (slotScores tiedScores 0) numClasses).1 ∧
     (∀ j, j < numClasses →
       slotScores tiedScores 0 j ≤ (slotMax (slotScores tiedScores 0) numClasses).1) ∧
     (∀ j, j < (slotMax (slotScores tiedScores 0) numClasses).2 →
       slotScores tiedScores 0 j < (slotMax (slotScores tiedScores 0) numClasses).1) ∧
     (∀ (boxes : Nat → ℚ) (id2label : Nat → Option String) (W H : ℚ),
       objectSlot (fun _ => 0) boxes id2label 0 W H 0 = some (Detection.object
         (objBox (boxes (0*4)) (boxes (0*4+1)) (boxes (0*4+2)) (boxes (0*4+3)) W H)
         0 0 (resolveLabel id2label 0)))) :=
  ⟨by with_unfolding_all decide,
   slotMax_ties_lowest_index tiedScores 0 (by with_unfolding_all decide)⟩

/-! ## Claim theorems: segmentation rendering (C1) -/

/-- C1: the segmentation renderer never reads the mask data.  Two segment
detections that agree on box, score, class and label but differ arbitrarily
in their 32 mask coefficients and prototype tensor produce identical canvas
output: `drawSegmentationMask` only tints the bounding box, it never
computes `sigmoid(sum k, coeffs[k] * protos[k,i,j])`, so the spec's
coefficient-times-prototype mask reconstruction is absent from the code. -/
theorem drawSegmentationMask_ignores_mask_data
    (measureText : String → ℚ) (b : Rect) (s : ℚ) (c : ℤ) (l : String)
    (co1 co2 : List ℚ) (mp1 mp2 : Nat → ℚ) (ms1 ms2 : Nat) :
    drawSegmentationMask measureText (.segment b s c l co1 mp1 ms1) =
      drawSegmentationMask measureText (.segment b s c l co2 mp2 ms2) := rfl

/-! ## Claim theorems: object scenario (C6) -/

/-- The C6 scenario's score tensor: slot 0 scores 0.7 on class 0, every
other entry 0. -/
def scores6 : Nat → ℚ := fun n => if n = 0 then 7/10 else 0

/-- The C6 scenario's box tensor: slot 0's normalized center/size row is
(0.5, 0.5, 0.2, 0.4). -/
def boxes6 : Nat → ℚ := fun n =>
  if n = 0 then 1/2 else if n = 1 then 1/2 else if n = 2 then 1/5
  else if n = 3 then 2/5 else 0

set_option maxHeartbeats 2000000 in
/-- Full kernel evaluation of the C6 scenario decode. -/
lemma objectDecode_scenario_eval :
    (objectDecode scores6 boxes6 (fun _ => none) (1/2) 640 640).map
      (fun d => (Detection.box d, Detection.score d, Detection.classId d,
        Detection.label d)) =
      [(⟨256, 192, 128, 256⟩, 7/10, 0, "person")] := by
  with_unfolding_all decide

/-- C6, counterexample: at threshold 0.5 with one row scoring 0.7 on
normalized box (0.5, 0.5, 0.2, 0.4) and a 640 by 640 frame the decoder
returns box (256, 192, 128, 256), not the claimed (192, 128, 128, 256) —
the x and y coordinates are each 64 px away, far beyond floating-point
tolerance. -/
theorem objectDecode_scenario_box_cex :
    (objectDecode scores6 boxes6 (fun _ => none) (1/2) 640 640).map
      Detection.box = [⟨256, 192, 128, 256⟩] ∧
    (⟨256, 192, 128, 256⟩ : Rect) ≠ ⟨192, 128, 128, 256⟩ ∧
    (256 : ℚ) - 192 = 64 := by
  refine ⟨?_, by with_unfolding_all decide, by with_unfolding_all decide⟩
  have h1 : (objectDecode scores6 boxes6 (fun _ => none) (1/2) 640 640).map
        Detection.box
      = ((objectDecode scores6 boxes6 (fun _ => none) (1/2) 640 640).map
          (fun d => (Detection.box d, Detection.score d, Detection.classId d,
            Detection.label d))).map (fun p => p.1) := by
    rw [List.map_map]
    exact List.map_congr_left (fun a _ => rfl)
  rw [h1, objectDecode_scenario_eval]
  rfl

/-- C6, amended: the scenario yields exactly one ObjectDetection, with
score 0.7, class 0 and pixel box (256, 192, 128, 256) — the box the
center/size decode formula actually produces for that row. -/
theorem objectDecode_scenario_exact :
    (objectDecode scores6 boxes6 (fun _ => none) (1/2) 640 640).length = 1 ∧
    (objectDecode scores6 boxes6 (fun _ => none) (1/2) 640 640).map
      (fun d => (Detection.box d, Detection.score d, Detection.classId d,
        Detection.label d)) =
      [(⟨256, 192, 128, 256⟩, 7/10, 0, "person")] := by
  refine ⟨?_, objectDecode_scenario_eval⟩
  have h := congrArg List.length objectDecode_scenario_eval
  rwa [List.length_map] at h

/-! ## Claim theorems: aggregation order (C7) and segmentation handling (C9) -/

/-- A pose tensor whose slot 0 scores 0.7 and every other entry is 0. -/
def poseData7 : Nat → ℚ := fun n => if n = 4 then 7/10 else 0

/-- A segmentation detection tensor whose slot 0 scores 0.7 and every other
entry is 0. -/
def segData9 : Nat → ℚ := fun n => if n = 4 then 7/10 else 0

/-- A prototype tensor whose leading shape entry is 16, not 32. -/
def protos16 : TensorView := ⟨[16, 160, 160], fun _ => 0⟩

/-- Segmentation results pairing `segData9` with the 16-prototype tensor. -/
def sr9 : SegResults := ⟨⟨[1, 300, 38], segData9⟩, protos16⟩

/-- Filtering twice on the same detection type changes nothing. -/
lemma filter_tag_self (l : List Detection) (a : DetType) :
    (l.filter (fun d => detType d == a)).filter (fun d => detType d == a) =
      l.filter (fun d => detType d == a) := by
  rw [List.filter_filter]
  simp only [Bool.and_self]

/-- Filtering one detection type out of another type's block is empty. -/
lemma filter_tag_other (l : List Detection) (a b : DetType) (hab : b ≠ a) :
    (l.filter (fun d => detType d == a)).filter (fun d => detType d == b) = [] := by
  rw [List.filter_filter]
  refine List.filter_eq_nil_iff.mpr ?_
  intro d _
  simp only [Bool.and_eq_true, beq_iff_eq]
  rintro ⟨hb, ha⟩
  exact hab (hb.symm.trans ha)

/-- The sequence `draw` processes is always in
segmentation-object-pose block order. -/
lemma segObjPoseOrder_draw (l : List Detection) : segObjPoseOrder (draw l) := by
  unfold segObjPoseOrder draw
  simp only [List.filter_append]
  rw [filter_tag_self l DetType.segment, filter_tag_self l DetType.object,
      filter_tag_self l DetType.pose,
      filter_tag_other l DetType.object DetType.segment (by decide),
      filter_tag_other l DetType.pose DetType.segment (by decide),
      filter_tag_other l DetType.segment DetType.object (by decide),
      filter_tag_other l DetType.pose DetType.object (by decide),
      filter_tag_other l DetType.segment DetType.pose (by decide),
      filter_tag_other l DetType.object DetType.pose (by decide)]
  simp

/-- C7, counterexample: with the pose head and the segmentation head each
contributing one detection, the merged sequence `parseDetections` builds is
[pose, segment] — the segmentation detection comes last, not first, so the
merged sequence is not in segmentation-object-pose stacking order. -/
theorem parseDetections_not_seg_first :
    ¬ segObjPoseOrder (parseDetections none (some poseData7) (some sr9)
        (fun _ => none) (1/2) 640 640) := by
  intro hEq
  exact absurd (congrArg (List.map detType) hEq) (by with_unfolding_all decide)

/-- C7, amended: `parseDetections` merges the per-head outputs in the fixed
order objects, then poses, then segmentation (each head contributing only
detections of its own type); the segmentation-first stacking happens one
step later, in `draw`, which filters the merged list and processes the
segment block first, then objects, then poses. -/
theorem parseDetections_order :
    (∀ (dOut : DetectOut) (pData : Nat → ℚ) (sRes : SegResults)
       (id2label : Nat → Option String) (t W H : ℚ),
      parseDetections (some dOut) (some pData) (some sRes) id2label t W H =
        objectDecode dOut.scores dOut.boxes id2label t W H ++
        (poseDecode pData t W H ++ parseSegmentation sRes t W H)) ∧
    (∀ (scores boxes : Nat → ℚ) (id2label : Nat → Option String) (t W H : ℚ),
      (objectDecode scores boxes id2label t W H).all
        (fun d => detType d == DetType.object) = true) ∧
    (∀ (pData : Nat → ℚ) (t W H : ℚ),
      (poseDecode pData t W H).all (fun d => detType d == DetType.pose) = true) ∧
    (∀ (sRes : SegResults) (t W H : ℚ),
      (parseSegmentation sRes t W H).all
        (fun d => detType d == DetType.segment) = true) ∧
    (∀ l : List Detection,
      draw l = l.filter (fun d => detType d == DetType.segment) ++
        (l.filter (fun d => detType d == DetType.object) ++
         l.filter (fun d => detType d == DetType.pose)) ∧
      segObjPoseOrder (draw l)) := by
  refine ⟨?_, ?_, ?_, ?_, fun l => ⟨by simp [draw], segObjPoseOrder_draw l⟩⟩
  · intro dOut pData sRes id2label t W H
    unfold parseDetections
    simp [List.append_assoc]
  · intro scores boxes id2label t W H
    rw [List.all_eq_true]
    intro d hd
    rcases List.mem_filterMap.mp hd with ⟨i, _, hi⟩
    simp only [objectSlot] at hi
    split at hi
    · next => cases hi; rfl
    · next => exact Option.noConfusion hi
  · intro pData t W H
    rw [List.all_eq_true]
    intro d hd
    rcases List.mem_filterMap.mp hd with ⟨i, _, hi⟩
    simp only [poseSlot] at hi
    split at hi
    · next => cases hi; rfl
    · next => exact Option.noConfusion hi
  · intro sRes t W H
    rw [List.all_eq_true]
    intro d hd
    rcases List.mem_filterMap.mp hd with ⟨i, _, hi⟩
    simp only [segSlot] at hi
    split at hi
    · next => exact Option.noConfusion hi
    · next => cases hi; rfl

/-- The segmentation detection slot 0 of `segData9` yields at threshold
0.5 on a 640 by 640 frame against the all-zero prototype buffer. -/
def segDet9 : Detection :=
  .segment ⟨0, 0, 0, 0⟩ (7/10) 0 "person" (List.replicate 32 0) (fun _ => 0) 160

/-- C9, counterexample: the per-detection coefficient count is fixed at 32
while the prototype tensor's leading shape entry is 16, yet
`parseSegmentation` still returns the frame's segmentation detection — no
coefficient/prototype count check exists and nothing is dropped. -/
theorem parseSegmentation_no_proto_check_cex :
    sr9.masks.shape = [16, 160, 160] ∧
    (parseSegmentation sr9 (1/2) 640 640).length = 1 ∧
    (parseSegmentation sr9 (1/2) 640 640).map
      (fun d => (segCoeffs d).length) = [32] := by
  refine ⟨rfl, ?_, ?_⟩ <;> with_unfolding_all decide

/-- C9, amended: `parseSegmentation` never inspects the prototype tensor —
every parsed field except the attached prototype buffer is identical for
any two prototype tensors; each emitted detection is a segment detection
carrying exactly 32 coefficients; and the other heads' contributions to the
merged frame are unaffected by the presence of segmentation results. -/
theorem parseSegmentation_proto_independent
    (det masks masks' : TensorView) (t W H : ℚ) :
    ((parseSegmentation ⟨det, masks⟩ t W H).map stripSeg =
      (parseSegmentation ⟨det, masks'⟩ t W H).map stripSeg) ∧
    (∀ i d, segSlot det.data masks.data t W H i = some d →
      (segCoeffs d).length = 32 ∧ detType d = DetType.segment) ∧
    (∀ (o : Option DetectOut) (p : Option (Nat → ℚ)) (sr : SegResults)
       (id2label : Nat → Option String),
      parseDetections o p (some sr) id2label t W H =
        parseDetections o p none id2label t W H ++
          parseSegmentation sr t W H) := by
  refine ⟨?_, ?_, ?_⟩
  · unfold parseSegmentation
    rw [List.map_filterMap, List.map_filterMap]
    apply List.filterMap_congr
    intro i _
    simp only [segSlot]
    by_cases hc : det.data (i * 38 + 4) < t
    · rw [if_pos hc, if_pos hc]
    · rw [if_neg hc, if_neg hc]
      rfl
  · intro i d hd
    simp only [segSlot] at hd
    split at hd
    · exact Option.noConfusion hd
    · cases hd
      exact ⟨by simp [segCoeffs], rfl⟩
  · intro o p sr id2label
    unfold parseDetections
    simp [List.append_assoc]

/-- Witness for `parseSegmentation_proto_independent`: the mismatched
16-prototype tensor and an all-one 32-prototype tensor parse identically,
and slot 0 of `segData9` is a segment detection with 32 coefficients. -/
theorem parseSegmentation_proto_independent_witness :
    ((parseSegmentation ⟨⟨[1, 300, 38], segData9⟩, protos16⟩ (1/2) 640 640).map
        stripSeg =
      (parseSegmentation ⟨⟨[1, 300, 38], segData9⟩,
        ⟨[32, 160, 160], fun _ => 1⟩⟩ (1/2) 640 640).map stripSeg) ∧
    ((segCoeffs segDet9).length = 32 ∧ detType segDet9 = DetType.segment) :=
  ⟨(parseSegmentation_proto_independent ⟨[1, 300, 38], segData9⟩ protos16
      ⟨[32, 160, 160], fun _ => 1⟩ (1/2) 640 640).1,
   (parseSegmentation_proto_independent ⟨[1, 300, 38], segData9⟩ protos16
      ⟨[32, 160, 160], fun _ => 1⟩ (1/2) 640 640).2.1 0 segDet9
      (by with_unfolding_all rfl)⟩
